import Mathlib

/-!
Verification development for the sample Flask application in
`src/app/main.py` (OpenTelemetry demo app).  The definitions below are a
shallow embedding of the parts of the program the claims talk about:
structured-log field injection (`CustomJsonFormatter.add_fields`), the
request lifecycle hooks, and the individual route handlers.  Randomness
(`random.uniform`, `random.choice`, `uuid.uuid4`) is made explicit as
parameters; machine integers are `Nat`; Python floats are idealised as `ℚ`.
-/

namespace OtelDemo

/-! ### Python hexadecimal formatting

`format(n, '032x')` renders `n` in lowercase hexadecimal, left-padded with
`'0'` to a minimum width.  We model the digit string and the padding. -/

/-- One lowercase hexadecimal digit character for a digit value `d < 16`,
as Python's `format(n, 'x')` produces (`'0'`–`'9'`, then `'a'`–`'f'`). -/
def hexDigitChar (d : Nat) : Char :=
  if d < 10 then Char.ofNat (d + 48) else Char.ofNat (d + 87)

/-- The lowercase hexadecimal digits of `n`, most significant first: the
character list of Python's `format(n, 'x')` (a single `'0'` for `n = 0`). -/
def hexDigits (n : Nat) : List Char :=
  if _h : n < 16 then [hexDigitChar n]
  else hexDigits (n / 16) ++ [hexDigitChar (n % 16)]
termination_by n
decreasing_by exact Nat.div_lt_self (by omega) (by omega)

theorem hexDigits_eq (n : Nat) :
    hexDigits n =
      if n < 16 then [hexDigitChar n]
      else hexDigits (n / 16) ++ [hexDigitChar (n % 16)] := by
  rw [hexDigits]
  by_cases h : n < 16 <;> simp [h]

/-- Python's `format(n, '0' + toString w + 'x')`: the hex digits of `n`,
left-padded with `'0'` to minimum width `w`. -/
def pyFormatHex (w n : Nat) : String :=
  ⟨List.replicate (w - (hexDigits n).length) '0' ++ hexDigits n⟩

/-- Numeric value of one lowercase hex digit character (decoder used only in
proofs, to show the rendered string still denotes the original number). -/
def hexCharVal (c : Char) : Nat :=
  if c.toNat ≤ 57 then c.toNat - 48 else c.toNat - 87

/-- Value of a lowercase hex digit string, most significant digit first. -/
def hexVal (l : List Char) : Nat :=
  l.foldl (fun a c => 16 * a + hexCharVal c) 0

/-- `c` is a lowercase hexadecimal digit character. -/
def isLowerHexDigit (c : Char) : Bool :=
  (48 ≤ c.toNat && c.toNat ≤ 57) || (97 ≤ c.toNat && c.toNat ≤ 102)

theorem hexCharVal_hexDigitChar (d : Nat) (h : d < 16) :
    hexCharVal (hexDigitChar d) = d := by
  interval_cases d <;> decide

theorem isLowerHexDigit_hexDigitChar (d : Nat) (h : d < 16) :
    isLowerHexDigit (hexDigitChar d) = true := by
  interval_cases d <;> decide

theorem hexDigits_length_pos (n : Nat) : 1 ≤ (hexDigits n).length := by
  rw [hexDigits_eq]
  by_cases h : n < 16 <;> simp [h]

theorem hexDigits_length_le (k : Nat) :
    ∀ n, n < 16 ^ (k + 1) → (hexDigits n).length ≤ k + 1 := by
  induction k with
  | zero =>
    intro n hn
    rw [hexDigits_eq, if_pos (by simpa using hn)]
    simp
  | succ k ih =>
    intro n hn
    rw [hexDigits_eq]
    by_cases h : n < 16
    · simp [h]
    · rw [if_neg h]
      have hdiv : n / 16 < 16 ^ (k + 1) := by
        rw [Nat.div_lt_iff_lt_mul (by omega)]
        calc n < 16 ^ (k + 1 + 1) := hn
        _ = 16 ^ (k + 1) * 16 := by ring
      have := ih (n / 16) hdiv
      simp only [List.length_append, List.length_singleton]
      omega

theorem hexVal_singleton (c : Char) : hexVal [c] = hexCharVal c := by
  simp [hexVal, List.foldl]

theorem hexVal_append_singleton (l : List Char) (c : Char) :
    hexVal (l ++ [c]) = 16 * hexVal l + hexCharVal c := by
  simp [hexVal, List.foldl_append, List.foldl]

theorem hexVal_hexDigits (n : Nat) : hexVal (hexDigits n) = n := by
  induction n using Nat.strong_induction_on with
  | _ n ih =>
    rw [hexDigits_eq]
    by_cases h : n < 16
    · rw [if_pos h, hexVal_singleton, hexCharVal_hexDigitChar n h]
    · rw [if_neg h, hexVal_append_singleton,
        ih (n / 16) (Nat.div_lt_self (by omega) (by omega)),
        hexCharVal_hexDigitChar _ (Nat.mod_lt _ (by omega))]
      omega

theorem hexDigits_all_hex (n : Nat) :
    ∀ c ∈ hexDigits n, isLowerHexDigit c = true := by
  induction n using Nat.strong_induction_on with
  | _ n ih =>
    rw [hexDigits_eq]
    by_cases h : n < 16
    · rw [if_pos h]
      intro c hc
      rw [List.mem_singleton] at hc
      rw [hc]
      exact isLowerHexDigit_hexDigitChar n h
    · rw [if_neg h]
      intro c hc
      rcases List.mem_append.mp hc with h1 | h2
      · exact ih (n / 16) (Nat.div_lt_self (by omega) (by omega)) c h1
      · rw [List.mem_singleton] at h2
        rw [h2]
        exact isLowerHexDigit_hexDigitChar _ (Nat.mod_lt _ (by omega))

theorem hexVal_replicate_zero_append (k : Nat) (l : List Char) :
    hexVal (List.replicate k '0' ++ l) = hexVal l := by
  induction k with
  | zero => simp
  | succ k ih =>
    rw [List.replicate_succ, List.cons_append]
    show List.foldl _ (16 * 0 + hexCharVal '0') _ = _
    have h0 : 16 * 0 + hexCharVal '0' = 0 := by decide
    rw [h0]
    exact ih

theorem pyFormatHex_length (w n : Nat) (h : (hexDigits n).length ≤ w) :
    (pyFormatHex w n).length = w := by
  show (List.replicate (w - (hexDigits n).length) '0' ++ hexDigits n).length = w
  rw [List.length_append, List.length_replicate]
  omega

theorem pyFormatHex_all_hex (w n : Nat) :
    ∀ c ∈ (pyFormatHex w n).data, isLowerHexDigit c = true := by
  intro c hc
  rcases List.mem_append.mp hc with h1 | h2
  · rw [List.eq_of_mem_replicate h1]
    decide
  · exact hexDigits_all_hex n c h2

theorem hexVal_pyFormatHex (w n : Nat) : hexVal (pyFormatHex w n).data = n := by
  show hexVal (List.replicate _ '0' ++ hexDigits n) = n
  rw [hexVal_replicate_zero_append, hexVal_hexDigits]

theorem pyFormatHex_ne_zeros (w n : Nat) (hn : n ≠ 0) :
    pyFormatHex w n ≠ ⟨List.replicate w '0'⟩ := by
  intro he
  have hdata : (pyFormatHex w n).data = List.replicate w '0' :=
    congrArg String.data he
  have h1 : hexVal (pyFormatHex w n).data = n := hexVal_pyFormatHex w n
  rw [hdata] at h1
  have h0 : hexVal (List.replicate w '0') = 0 := by
    have := hexVal_replicate_zero_append w []
    simpa [hexVal, List.foldl] using this
  omega

/-! ### Span context, environment, resource, and the JSON log formatter

Embeds `CustomJsonFormatter.add_fields` (src/app/main.py lines 71–84), the
`Resource.create` call (lines 32–44, the two attributes the claims mention),
and `os.getenv`. -/

/-- An OpenTelemetry span context (`span.get_span_context()`): the pair of
identifiers; `trace_id` is a 128-bit integer, `span_id` a 64-bit integer. -/
structure SpanContext where
  trace_id : Nat
  span_id : Nat
deriving DecidableEq

/-- `SpanContext.is_valid` of the OpenTelemetry API: both identifiers differ
from the invalid (all-zero) identifiers. -/
def SpanContext.is_valid (c : SpanContext) : Prop :=
  c.trace_id ≠ 0 ∧ c.span_id ≠ 0

instance (c : SpanContext) : Decidable c.is_valid := by
  unfold SpanContext.is_valid
  exact instDecidableAnd

/-- JSON scalar values occurring in structured log records and response
bodies. -/
inductive JVal where
  | s : String → JVal
  | q : ℚ → JVal
  | n : Nat → JVal
  | b : Bool → JVal
  | strs : List String → JVal
deriving DecidableEq

/-- Process environment, as queried by `os.getenv`. -/
def Env : Type := String → Option String

/-- `os.getenv(k, d)`: the variable's value, or the default when unset. -/
def getenvD (env : Env) (k d : String) : String := (env k).getD d

/-- `service.name` of the `Resource.create` call (main.py line 34):
`os.getenv("DD_SERVICE", os.getenv("OTEL_SERVICE_NAME", "sample-app"))`. -/
def resourceServiceName (env : Env) : String :=
  getenvD env "DD_SERVICE" (getenvD env "OTEL_SERVICE_NAME" "sample-app")

/-- `deployment.environment` of the `Resource.create` call (line 36):
`os.getenv("DD_ENV", os.getenv("OTEL_ENVIRONMENT", "demo"))`. -/
def resourceDeploymentEnvironment (env : Env) : String :=
  getenvD env "DD_ENV" (getenvD env "OTEL_ENVIRONMENT" "demo")

/-- The fields `CustomJsonFormatter.add_fields` writes into a log record
(lines 73–84): the five unconditional fields, then — when the current span
is non-`None` and its context is valid — the zero-padded hex trace and span
identifiers.  `cur` is the result of `trace.get_current_span()` at emission
time (`none` models Python `None`; the API's `INVALID_SPAN` is
`some ⟨0, 0⟩`). -/
def addFields (env : Env) (levelname loggerName timestamp : String)
    (cur : Option SpanContext) : List (String × JVal) :=
  [("service", JVal.s "sample-app"),
   ("environment", JVal.s (getenvD env "OTEL_ENVIRONMENT" "demo")),
   ("level", JVal.s levelname),
   ("logger", JVal.s loggerName),
   ("timestamp", JVal.s timestamp)] ++
  (match cur with
   | some ctx =>
       if ctx.is_valid then
         [("trace_id", JVal.s (pyFormatHex 32 ctx.trace_id)),
          ("span_id", JVal.s (pyFormatHex 16 ctx.span_id))]
       else []
   | none => [])

theorem addFields_some (env : Env) (lvl lg ts : String) (ctx : SpanContext) :
    addFields env lvl lg ts (some ctx) =
      [("service", JVal.s "sample-app"),
       ("environment", JVal.s (getenvD env "OTEL_ENVIRONMENT" "demo")),
       ("level", JVal.s lvl),
       ("logger", JVal.s lg),
       ("timestamp", JVal.s ts)] ++
      (if ctx.is_valid then
         [("trace_id", JVal.s (pyFormatHex 32 ctx.trace_id)),
          ("span_id", JVal.s (pyFormatHex 16 ctx.span_id))]
       else []) := rfl

/-- C1: for every log record emitted while a span is active (a valid current
span context, with 128-bit trace and 64-bit span identifiers), the trace
identifier written into the record is exactly 32 lowercase hexadecimal
characters and the span identifier exactly 16 (zero-padded), and neither is
the all-zero string. -/
theorem addFields_trace_ids_wellformed (env : Env) (lvl lg ts : String)
    (ctx : SpanContext) (hv : ctx.is_valid)
    (ht : ctx.trace_id < 2 ^ 128) (hs : ctx.span_id < 2 ^ 64) :
    ∃ t s : String,
      (addFields env lvl lg ts (some ctx)).lookup "trace_id" = some (JVal.s t) ∧
      (addFields env lvl lg ts (some ctx)).lookup "span_id" = some (JVal.s s) ∧
      t.length = 32 ∧ s.length = 16 ∧
      (∀ c ∈ t.data, isLowerHexDigit c = true) ∧
      (∀ c ∈ s.data, isLowerHexDigit c = true) ∧
      t ≠ ⟨List.replicate 32 '0'⟩ ∧ s ≠ ⟨List.replicate 16 '0'⟩ := by
  refine ⟨pyFormatHex 32 ctx.trace_id, pyFormatHex 16 ctx.span_id,
    ?_, ?_, ?_, ?_, ?_, ?_, ?_, ?_⟩
  · rw [addFields_some, if_pos hv]
    rfl
  · rw [addFields_some, if_pos hv]
    rfl
  · refine pyFormatHex_length 32 _ ?_
    have h16 : ctx.trace_id < 16 ^ 32 := by
      have : (16 : ℕ) ^ 32 = 2 ^ 128 := by norm_num
      omega
    exact hexDigits_length_le 31 _ h16
  · refine pyFormatHex_length 16 _ ?_
    have h16 : ctx.span_id < 16 ^ 16 := by
      have : (16 : ℕ) ^ 16 = 2 ^ 64 := by norm_num
      omega
    exact hexDigits_length_le 15 _ h16
  · exact pyFormatHex_all_hex 32 ctx.trace_id
  · exact pyFormatHex_all_hex 16 ctx.span_id
  · exact pyFormatHex_ne_zeros 32 _ hv.1
  · exact pyFormatHex_ne_zeros 16 _ hv.2

theorem addFields_trace_ids_wellformed_witness :
    (SpanContext.mk 1 1).is_valid ∧ 1 < 2 ^ 128 ∧ 1 < 2 ^ 64 ∧
    (∃ t s : String,
      (addFields (fun _ => none) "INFO" "app.main" "ts"
        (some ⟨1, 1⟩)).lookup "trace_id" = some (JVal.s t) ∧
      (addFields (fun _ => none) "INFO" "app.main" "ts"
        (some ⟨1, 1⟩)).lookup "span_id" = some (JVal.s s) ∧
      t.length = 32 ∧ s.length = 16 ∧
      (∀ c ∈ t.data, isLowerHexDigit c = true) ∧
      (∀ c ∈ s.data, isLowerHexDigit c = true) ∧
      t ≠ ⟨List.replicate 32 '0'⟩ ∧ s ≠ ⟨List.replicate 16 '0'⟩) :=
  ⟨by decide, by norm_num, by norm_num,
    addFields_trace_ids_wellformed (fun _ => none) "INFO" "app.main" "ts"
      ⟨1, 1⟩ (by decide) (by norm_num) (by norm_num)⟩

/-- C2 counterexample: `trace.get_current_span()` can be non-`None` while no
span is active — it then returns `INVALID_SPAN`, whose context `⟨0, 0⟩` is
not valid — and `add_fields` omits both identifiers for it, so "whenever
`current_span()` is non-none the identifiers are appended" is false as
stated. -/
theorem addFields_nonnone_invalid_omits :
    (addFields (fun _ => none) "INFO" "app.main" "ts"
      (some ⟨0, 0⟩)).lookup "trace_id" = none ∧
    (addFields (fun _ => none) "INFO" "app.main" "ts"
      (some ⟨0, 0⟩)).lookup "span_id" = none := by
  decide

/-- C2 (amended): whenever the current span is non-`None` *and its span
context is valid*, the trace and span identifiers are appended as fixed-width
hex strings (trace zero-padded to 32 digits, span to 16); when the current
span is `None`, or its context is invalid, both fields are omitted. -/
theorem addFields_trace_injection_iff_valid (env : Env) (lvl lg ts : String)
    (cur : Option SpanContext) :
    (∀ ctx, cur = some ctx → ctx.is_valid →
      (addFields env lvl lg ts cur).lookup "trace_id" =
        some (JVal.s (pyFormatHex 32 ctx.trace_id)) ∧
      (addFields env lvl lg ts cur).lookup "span_id" =
        some (JVal.s (pyFormatHex 16 ctx.span_id))) ∧
    ((cur = none ∨ ∃ ctx, cur = some ctx ∧ ¬ ctx.is_valid) →
      (addFields env lvl lg ts cur).lookup "trace_id" = none ∧
      (addFields env lvl lg ts cur).lookup "span_id" = none) := by
  constructor
  · rintro ctx rfl hv
    constructor
    · rw [addFields_some, if_pos hv]
      rfl
    · rw [addFields_some, if_pos hv]
      rfl
  · rintro (rfl | ⟨ctx, rfl, hnv⟩)
    · constructor <;> rfl
    · constructor
      · rw [addFields_some, if_neg hnv]
        rfl
      · rw [addFields_some, if_neg hnv]
        rfl

theorem addFields_trace_injection_iff_valid_witness :
    (addFields (fun _ => none) "INFO" "app.main" "ts"
      (some ⟨1, 1⟩)).lookup "trace_id" =
        some (JVal.s (pyFormatHex 32 1)) ∧
    (addFields (fun _ => none) "INFO" "app.main" "ts"
      (some ⟨1, 1⟩)).lookup "span_id" =
        some (JVal.s (pyFormatHex 16 1)) :=
  (addFields_trace_injection_iff_valid (fun _ => none) "INFO" "app.main" "ts"
    (some ⟨1, 1⟩)).1 ⟨1, 1⟩ rfl (by decide)

/-- C4 counterexample: with `DD_SERVICE=payments-svc` in the environment the
resource descriptor's `service.name` is `"payments-svc"`, yet every log
record's `service` field is the hard-coded literal `"sample-app"`, so the
record's service field is not the resource descriptor's value. -/
theorem record_service_differs_from_resource :
    resourceServiceName
      (fun k => if k = "DD_SERVICE" then some "payments-svc" else none) =
        "payments-svc" ∧
    (addFields
      (fun k => if k = "DD_SERVICE" then some "payments-svc" else none)
      "INFO" "app.main" "ts" none).lookup "service" =
        some (JVal.s "sample-app") ∧
    ("payments-svc" : String) ≠ "sample-app" := by
  refine ⟨by decide, by decide, by decide⟩

/-- C4 (amended): every record's `service` field is the constant
`"sample-app"` and its `environment` field is `os.getenv("OTEL_ENVIRONMENT",
"demo")` — identical across all records of one process (fixed environment) —
but these equal the resource descriptor's `service.name` and
`deployment.environment` only when the `DD_SERVICE`/`OTEL_SERVICE_NAME` and
`DD_ENV` overrides are unset. -/
theorem addFields_static_fields (env : Env) (l1 g1 t1 l2 g2 t2 : String)
    (cur1 cur2 : Option SpanContext) :
    ((addFields env l1 g1 t1 cur1).lookup "service" =
        some (JVal.s "sample-app") ∧
      (addFields env l2 g2 t2 cur2).lookup "service" =
        (addFields env l1 g1 t1 cur1).lookup "service") ∧
    ((addFields env l1 g1 t1 cur1).lookup "environment" =
        some (JVal.s (getenvD env "OTEL_ENVIRONMENT" "demo")) ∧
      (addFields env l2 g2 t2 cur2).lookup "environment" =
        (addFields env l1 g1 t1 cur1).lookup "environment") ∧
    (env "DD_SERVICE" = none → env "OTEL_SERVICE_NAME" = none →
      resourceServiceName env = "sample-app") ∧
    (env "DD_ENV" = none →
      resourceDeploymentEnvironment env =
        getenvD env "OTEL_ENVIRONMENT" "demo") := by
  refine ⟨⟨rfl, rfl⟩, ⟨rfl, rfl⟩, ?_, ?_⟩
  · intro h1 h2
    simp [resourceServiceName, getenvD, h1, h2]
  · intro h1
    simp [resourceDeploymentEnvironment, getenvD, h1]

theorem addFields_static_fields_witness :
    ((fun _ => none : Env) "DD_SERVICE" = none ∧
      (fun _ => none : Env) "OTEL_SERVICE_NAME" = none ∧
      (fun _ => none : Env) "DD_ENV" = none) ∧
    (((addFields (fun _ => none) "INFO" "a" "t1" none).lookup "service" =
        some (JVal.s "sample-app") ∧
      (addFields (fun _ => none) "DEBUG" "b" "t2"
          (some ⟨1, 1⟩)).lookup "service" =
        (addFields (fun _ => none) "INFO" "a" "t1" none).lookup "service") ∧
    ((addFields (fun _ => none) "INFO" "a" "t1" none).lookup "environment" =
        some (JVal.s (getenvD (fun _ => none) "OTEL_ENVIRONMENT" "demo")) ∧
      (addFields (fun _ => none) "DEBUG" "b" "t2"
          (some ⟨1, 1⟩)).lookup "environment" =
        (addFields (fun _ => none) "INFO" "a" "t1" none).lookup
          "environment") ∧
    ((fun _ => none : Env) "DD_SERVICE" = none →
      (fun _ => none : Env) "OTEL_SERVICE_NAME" = none →
      resourceServiceName (fun _ => none) = "sample-app") ∧
    ((fun _ => none : Env) "DD_ENV" = none →
      resourceDeploymentEnvironment (fun _ => none) =
        getenvD (fun _ => none) "OTEL_ENVIRONMENT" "demo")) :=
  ⟨⟨rfl, rfl, rfl⟩,
    addFields_static_fields (fun _ => none) "INFO" "a" "t1" "DEBUG" "b" "t2"
      none (some ⟨1, 1⟩)⟩

/-! ### Python rounding, idealised on exact rationals

`round(x, p)` on a float rounds to the nearest multiple of `10 ^ (-p)`,
ties to even; we model it on `ℚ`. -/

/-- Python's built-in `round(x)`: nearest integer, ties to the even one. -/
def pyRound0 (x : ℚ) : ℤ :=
  if x - ⌊x⌋ < 1 / 2 then ⌊x⌋
  else if 1 / 2 < x - ⌊x⌋ then ⌊x⌋ + 1
  else if ⌊x⌋ % 2 = 0 then ⌊x⌋ else ⌊x⌋ + 1

/-- Python's `round(x, p)`: nearest multiple of `10 ^ (-p)`, ties to even. -/
def pyRoundTo (p : Nat) (x : ℚ) : ℚ :=
  (pyRound0 (10 ^ p * x) : ℚ) / 10 ^ p

theorem pyRound0_le (x : ℚ) : (pyRound0 x : ℚ) ≤ x + 1 / 2 := by
  have hf1 : (⌊x⌋ : ℚ) ≤ x := Int.floor_le x
  have hf2 : x < ⌊x⌋ + 1 := Int.lt_floor_add_one x
  unfold pyRound0
  split_ifs with h1 h2 h3 <;> push_cast <;> linarith

theorem le_pyRound0 (x : ℚ) : x - 1 / 2 ≤ (pyRound0 x : ℚ) := by
  have hf1 : (⌊x⌋ : ℚ) ≤ x := Int.floor_le x
  have hf2 : x < ⌊x⌋ + 1 := Int.lt_floor_add_one x
  unfold pyRound0
  split_ifs with h1 h2 h3 <;> push_cast <;> linarith

theorem pyRoundTo_close (p : Nat) (x : ℚ) :
    |pyRoundTo p x - x| ≤ 1 / (2 * 10 ^ p) := by
  have h1 := pyRound0_le (10 ^ p * x)
  have h2 := le_pyRound0 (10 ^ p * x)
  have hp : (0 : ℚ) < 10 ^ p := by positivity
  have hsub : pyRoundTo p x - x =
      ((pyRound0 (10 ^ p * x) : ℚ) - 10 ^ p * x) / 10 ^ p := by
    rw [pyRoundTo]
    field_simp
  rw [hsub, abs_div, abs_of_pos hp, div_le_iff₀ hp]
  have hmul : (1 : ℚ) / (2 * 10 ^ p) * 10 ^ p = 1 / 2 := by
    field_simp
    ring
  rw [hmul, abs_le]
  constructor <;> linarith

theorem pyRoundTo_mem_Icc (p : Nat) (x lo hi : ℚ)
    (hlo : lo ≤ x) (hhi : x ≤ hi)
    (mlo mhi : ℤ) (hmlo : (mlo : ℚ) = 10 ^ p * lo)
    (hmhi : (mhi : ℚ) = 10 ^ p * hi) :
    lo ≤ pyRoundTo p x ∧ pyRoundTo p x ≤ hi := by
  have hp : (0 : ℚ) < 10 ^ p := by positivity
  have h1 := pyRound0_le (10 ^ p * x)
  have h2 := le_pyRound0 (10 ^ p * x)
  have hup : pyRound0 (10 ^ p * x) ≤ mhi := by
    have hq : (pyRound0 (10 ^ p * x) : ℚ) < mhi + 1 := by
      rw [hmhi]
      nlinarith
    exact_mod_cast Int.lt_add_one_iff.mp (by exact_mod_cast hq)
  have hdown : mlo ≤ pyRound0 (10 ^ p * x) := by
    have hq : (mlo : ℚ) - 1 < pyRound0 (10 ^ p * x) := by
      rw [hmlo]
      nlinarith
    have : mlo - 1 < pyRound0 (10 ^ p * x) := by exact_mod_cast hq
    omega
  constructor
  · rw [pyRoundTo, le_div_iff₀ hp]
    calc lo * 10 ^ p = (mlo : ℚ) := by rw [hmlo]; ring
    _ ≤ pyRound0 (10 ^ p * x) := by exact_mod_cast hdown
  · rw [pyRoundTo, div_le_iff₀ hp]
    calc (pyRound0 (10 ^ p * x) : ℚ) ≤ (mhi : ℚ) := by exact_mod_cast hup
    _ = hi * 10 ^ p := by rw [hmhi]; ring

/-! ### `/api/slow` (`slow_endpoint`, main.py lines 709–757)

The handler draws `delay = random.uniform(0.5, 2.0)`, sleeps in three phases
of `delay / 3` each, and returns `delay_seconds = round(delay, 2)`.  The
wall-clock duration of the request is the slept time plus the nonnegative
time everything else takes (`time.sleep` never sleeps less than asked). -/

/-- `phases = 3` in `slow_endpoint`. -/
def slowPhases : Nat := 3

/-- Total time `slow_endpoint` sleeps for target delay `d`: `phases` phases
of `delay / phases` seconds each. -/
def slowSleepTotal (d : ℚ) : ℚ := slowPhases * (d / slowPhases)

/-- Wall-clock duration of a `/api/slow` request: the slept time plus the
(nonnegative) duration of everything else in the request. -/
def slowWallClock (d overhead : ℚ) : ℚ := slowSleepTotal d + overhead

/-- Response body of `/api/slow` (lines 752–757) for target delay `d` and
request id `rid`. -/
def slowBody (d : ℚ) (rid : String) : List (String × JVal) :=
  [("message", JVal.s "Slow operation completed"),
   ("delay_seconds", JVal.q (pyRoundTo 2 d)),
   ("phases", JVal.n slowPhases),
   ("request_id", JVal.s rid)]

/-- C6 counterexample: for target delay `0.566` the handler sleeps `0.566`
seconds in total but returns `delay_seconds = 0.57`, so with zero overhead
the wall-clock duration of the request is strictly below the returned
`delay_seconds` — the claim's inequality fails as stated. -/
theorem slow_wallclock_lt_reported :
    (1 / 2 : ℚ) ≤ 283 / 500 ∧ (283 / 500 : ℚ) ≤ 2 ∧ ((0 : ℚ) ≤ 0) ∧
    (slowBody (283 / 500) "abc12345").lookup "delay_seconds" =
      some (JVal.q (57 / 100)) ∧
    slowWallClock (283 / 500) 0 < 57 / 100 := by
  have hval : pyRoundTo 2 (283 / 500 : ℚ) = 57 / 100 := by
    have hfl : ⌊(10 ^ 2 * (283 / 500) : ℚ)⌋ = 56 := by
      rw [Int.floor_eq_iff]
      norm_num
    unfold pyRoundTo pyRound0
    rw [hfl]
    norm_num
  refine ⟨by norm_num, by norm_num, le_refl 0, ?_, ?_⟩
  · show some (JVal.q (pyRoundTo 2 (283 / 500))) = _
    rw [hval]
  · show slowPhases * ((283 / 500 : ℚ) / slowPhases) + 0 < 57 / 100
    norm_num [slowPhases]

/-- C6 (amended): `delay_seconds` is `round(delay, 2)` for
`delay = random.uniform(0.5, 2.0)` and lies in `[0.5, 2.0]`; the wall-clock
duration of the request is at least the actual delay `delay`, and the
returned `delay_seconds` differs from that actual delay by at most `0.005`
(so the duration can undershoot the returned value, but by no more than the
rounding error). -/
theorem slow_endpoint_delay_bounds (d overhead : ℚ) (rid : String)
    (h1 : 1 / 2 ≤ d) (h2 : d ≤ 2) (hov : 0 ≤ overhead) :
    ∃ v : ℚ,
      (slowBody d rid).lookup "delay_seconds" = some (JVal.q v) ∧
      1 / 2 ≤ v ∧ v ≤ 2 ∧
      d ≤ slowWallClock d overhead ∧
      |v - d| ≤ 1 / 200 := by
  refine ⟨pyRoundTo 2 d, rfl, ?_, ?_, ?_, ?_⟩
  · exact (pyRoundTo_mem_Icc 2 d (1 / 2) 2 h1 h2 50 200 (by norm_num)
      (by norm_num)).1
  · exact (pyRoundTo_mem_Icc 2 d (1 / 2) 2 h1 h2 50 200 (by norm_num)
      (by norm_num)).2
  · show d ≤ slowPhases * (d / slowPhases) + overhead
    have h3 : ((slowPhases : ℕ) : ℚ) = 3 := by norm_num [slowPhases]
    have heq : ((slowPhases : ℕ) : ℚ) * (d / slowPhases) = d := by
      rw [h3]
      ring
    rw [heq]
    linarith
  · have := pyRoundTo_close 2 d
    calc |pyRoundTo 2 d - d| ≤ 1 / (2 * 10 ^ 2) := this
    _ = 1 / 200 := by norm_num

theorem slow_endpoint_delay_bounds_witness :
    ((1 / 2 : ℚ) ≤ 1 ∧ (1 : ℚ) ≤ 2 ∧ (0 : ℚ) ≤ 0) ∧
    (∃ v : ℚ,
      (slowBody 1 "abc12345").lookup "delay_seconds" = some (JVal.q v) ∧
      1 / 2 ≤ v ∧ v ≤ 2 ∧
      (1 : ℚ) ≤ slowWallClock 1 0 ∧
      |v - 1| ≤ 1 / 200) :=
  ⟨⟨by norm_num, by norm_num, le_refl 0⟩,
    slow_endpoint_delay_bounds 1 0 "abc12345" (by norm_num) (by norm_num)
      (le_refl 0)⟩

/-! ### `/error` (`error_endpoint`, main.py lines 760–819)

The handler chooses one of three error names, records it on the span, raises
the matching exception inside a `try:` block whose every path raises, and
the `except Exception` clause converts it into a JSON 500 response. -/

/-- A Python exception raised by `error_endpoint`. -/
inductive PyExc where
  | valueError : String → PyExc
  | runtimeError : String → PyExc
  | keyError : String → PyExc
deriving DecidableEq

/-- `type(e).__name__`. -/
def PyExc.typeName : PyExc → String
  | .valueError _ => "ValueError"
  | .runtimeError _ => "RuntimeError"
  | .keyError _ => "KeyError"

/-- `str(e)`.  For `KeyError` Python renders the `repr` of the missing key,
so the message comes back wrapped in single quotes. -/
def PyExc.msgStr : PyExc → String
  | .valueError m => m
  | .runtimeError m => m
  | .keyError k => "'" ++ k ++ "'"

/-- `str(e.args)`: the `repr` of the one-element argument tuple. -/
def PyExc.argsStr : PyExc → String
  | .valueError m => "('" ++ m ++ "',)"
  | .runtimeError m => "('" ++ m ++ "',)"
  | .keyError k => "('" ++ k ++ "',)"

/-- The population of `random.choice(["ValueError", "RuntimeError",
"KeyError"])` (line 785). -/
def errorChoices : List String := ["ValueError", "RuntimeError", "KeyError"]

/-- The outcome of `random.choice` for draw `i`. -/
def errorChoice (i : Fin 3) : String := errorChoices.get ⟨i.1, i.2⟩

/-- The exception raised by the `if/elif/else` ladder (lines 789–794) for
the chosen error name. -/
def raisedExc (c : String) : PyExc :=
  if c = "ValueError" then
    .valueError "Simulated validation error - invalid input data"
  else if c = "RuntimeError" then
    .runtimeError "Simulated runtime error - service unavailable"
  else
    .keyError "Simulated key error - missing configuration"

/-- The `try:` body after the error name is chosen: every branch of the
ladder raises, so it always produces an exception. -/
def errorTryBlock (c : String) : Except PyExc Unit := .error (raisedExc c)

/-- Attributes set on the `error-operation` span before the raise
(lines 764–765 and 786). -/
def errorSpanAttrs (i : Fin 3) : List (String × JVal) :=
  [("http.route", JVal.s "/error"),
   ("error.simulated", JVal.b true),
   ("error.type", JVal.s (errorChoice i))]

/-- `error_endpoint`'s response for draw `i` and request id `rid`:
`none` would model the handler falling out of the `try/except` without
returning (which cannot happen, since the `try` body always raises);
otherwise the `except Exception` clause's `(jsonify(...), 500)`. -/
def errorResponse (i : Fin 3) (rid : String) :
    Option (List (String × JVal) × Nat) :=
  match errorTryBlock (errorChoice i) with
  | .ok _ => none
  | .error e =>
      some ([("error", JVal.s e.msgStr),
             ("error_type", JVal.s e.typeName),
             ("request_id", JVal.s rid)], 500)

/-- C5: every call of `GET /error` — whatever the random draw — returns
HTTP 500 with a JSON body of exactly the fields `error`, `error_type` and
`request_id`, where `error` is a non-empty string and `error_type` is one of
ValueError, RuntimeError, KeyError; the raised exception is recovered at the
handler boundary (the response is always `some …`, never an escape). -/
theorem error_endpoint_response (i : Fin 3) (rid : String) :
    ∃ body : List (String × JVal),
      errorResponse i rid = some (body, 500) ∧
      body.map Prod.fst = ["error", "error_type", "request_id"] ∧
      (∃ msg : String, body.lookup "error" = some (JVal.s msg) ∧ msg ≠ "") ∧
      (∃ t : String,
        body.lookup "error_type" = some (JVal.s t) ∧ t ∈ errorChoices) ∧
      body.lookup "request_id" = some (JVal.s rid) := by
  fin_cases i <;>
    exact ⟨_, rfl, rfl, ⟨_, rfl, by decide⟩, ⟨_, rfl, by decide⟩, rfl⟩

/-- C8: for every outcome of the random choice in `/error`, the `error_type`
field of the 500 body, the `error.type` attribute on the handler span, and
the class name of the exception actually raised all denote the same error
kind. -/
theorem error_type_consistent (i : Fin 3) (rid : String) :
    ∃ t : String,
      (errorSpanAttrs i).lookup "error.type" = some (JVal.s t) ∧
      (raisedExc (errorChoice i)).typeName = t ∧
      ∃ body : List (String × JVal),
        errorResponse i rid = some (body, 500) ∧
        body.lookup "error_type" = some (JVal.s t) := by
  fin_cases i <;> exact ⟨_, rfl, rfl, _, rfl, rfl⟩

/-! ### `/health` (`health`, main.py lines 822–827) -/

/-- The attribute set on the `health-check` span. -/
def healthSpanAttrs : List (String × JVal) :=
  [("health.status", JVal.s "healthy")]

/-- `health`'s response: `jsonify({"status": "healthy", "service":
"sample-app"})` with Flask's default status 200.  The handler reads no
request state and no state of any other endpoint: it is a constant. -/
def healthResponse : List (String × JVal) × Nat :=
  ([("status", JVal.s "healthy"), ("service", JVal.s "sample-app")], 200)

/-- C7: every call of `GET /health` returns HTTP 200 with a body whose
`status` field is `"healthy"`; the handler is a constant function, so this
is independent of the state or outcome of any other endpoint. -/
theorem health_always_healthy :
    healthResponse.2 = 200 ∧
    healthResponse.1.lookup "status" = some (JVal.s "healthy") :=
  ⟨rfl, rfl⟩

/-! ### `/api/orders` (`get_orders`, main.py lines 617–706) -/

/-- One row of the hard-coded `orders` result set (lines 662–665). -/
structure Order where
  id : Nat
  user_id : Nat
  total : ℚ
  status : String
  items : Nat
deriving DecidableEq

/-- The two hard-coded orders rows. -/
def ordersRows : List Order :=
  [⟨101, 1, 9999 / 100, "shipped", 3⟩,
   ⟨102, 2, 299 / 2, "pending", 5⟩]

/-- `total_value = sum(o["total"] for o in orders)` (line 679). -/
def ordersTotalValue : ℚ := (ordersRows.map Order.total).sum

/-- `total_items = sum(o["items"] for o in orders)` (line 680). -/
def ordersTotalItems : Nat := (ordersRows.map Order.items).sum

/-- The `summary` object of the `/api/orders` response (line 704). -/
structure OrdersSummary where
  count : Nat
  total_value : ℚ
  total_items : Nat
deriving DecidableEq

/-- The `/api/orders` response body (lines 702–706). -/
structure OrdersBody where
  orders : List Order
  summary : OrdersSummary
  request_id : String
deriving DecidableEq

def ordersBody (rid : String) : OrdersBody :=
  { orders := ordersRows,
    summary :=
      { count := ordersRows.length,
        total_value := ordersTotalValue,
        total_items := ordersTotalItems },
    request_id := rid }

/-- C10: every `GET /api/orders` response is internally consistent:
`summary.count` is the length of the `orders` list, `summary.total_value`
the sum of the orders' `total` fields, and `summary.total_items` the sum of
their `items` fields. -/
theorem orders_summary_consistent (rid : String) :
    (ordersBody rid).summary.count = (ordersBody rid).orders.length ∧
    (ordersBody rid).summary.total_value =
      ((ordersBody rid).orders.map Order.total).sum ∧
    (ordersBody rid).summary.total_items =
      ((ordersBody rid).orders.map Order.items).sum :=
  ⟨rfl, rfl, rfl⟩

/-! ### Request identifier generation (`before_request`, main.py line 449)

`g.request_id = str(uuid.uuid4())[:8]`.  `str` of a UUID lays the 32
lowercase hex digits of its 128-bit value out as 8-4-4-4-12 groups joined by
hyphens; slicing the first 8 characters keeps the first hex group. -/

/-- `str(uuid.UUID(int = n))`: canonical hyphenated lowercase-hex layout. -/
def uuidStrChars (n : Nat) : List Char :=
  (pyFormatHex 32 n).data.take 8 ++
    ('-' :: (((pyFormatHex 32 n).data.drop 8).take 4 ++
      ('-' :: (((pyFormatHex 32 n).data.drop 12).take 4 ++
        ('-' :: (((pyFormatHex 32 n).data.drop 16).take 4 ++
          ('-' :: (pyFormatHex 32 n).data.drop 20)))))))

/-- `str(uuid.uuid4())[:8]` — the request identifier `before_request`
stores in `g.request_id`, for uuid value `n`. -/
def requestIdChars (n : Nat) : List Char := (uuidStrChars n).take 8

theorem pyFormatHex32_data_length (n : Nat) (h : n < 2 ^ 128) :
    (pyFormatHex 32 n).data.length = 32 := by
  have h16 : n < 16 ^ 32 := by
    have : (16 : ℕ) ^ 32 = 2 ^ 128 := by norm_num
    omega
  exact pyFormatHex_length 32 n (hexDigits_length_le 31 n h16)

theorem requestIdChars_eq_take (n : Nat) (h : n < 2 ^ 128) :
    requestIdChars n = (pyFormatHex 32 n).data.take 8 := by
  unfold requestIdChars uuidStrChars
  refine List.take_left' ?_
  rw [List.length_take, pyFormatHex32_data_length n h]
  omega

/-- C9: the request identifier generated by `before_request` is exactly 8
characters, each a lowercase hexadecimal digit (in particular hyphen-free):
it is the first 8 characters of the UUID4 string. -/
theorem request_id_shape (n : Nat) (h : n < 2 ^ 128) :
    (requestIdChars n).length = 8 ∧
    ∀ c ∈ requestIdChars n, isLowerHexDigit c = true ∧ c ≠ '-' := by
  rw [requestIdChars_eq_take n h]
  constructor
  · rw [List.length_take, pyFormatHex32_data_length n h]
    omega
  · intro c hc
    have hmem : c ∈ (pyFormatHex 32 n).data :=
      (List.take_sublist 8 _).subset hc
    have hhex := pyFormatHex_all_hex 32 n c hmem
    refine ⟨hhex, ?_⟩
    intro hdash
    rw [hdash] at hhex
    exact absurd hhex (by decide)

theorem request_id_shape_witness :
    (1 : Nat) < 2 ^ 128 ∧
    ((requestIdChars 1).length = 8 ∧
      ∀ c ∈ requestIdChars 1, isLowerHexDigit c = true ∧ c ≠ '-') :=
  ⟨by norm_num, request_id_shape 1 (by norm_num)⟩

/-! ### Request lifecycle: `before_request`, handlers, `after_request`

One inbound request, with the randomness and timing made explicit:
`rid` is `g.request_id`, `qt` the timed database-query duration (ms),
`delay` the `/api/slow` target delay, `choice` the `/error` draw, and
`elapsedMs` the elapsed time measured by `after_request`.  Each handler's
`extra` dicts are transcribed in source order. -/

/-- The routes of the application. -/
inductive Endpoint where
  | home
  | apiHome
  | users
  | orders
  | slow
  | error
  | health
deriving DecidableEq

/-- `request.path` for each route. -/
def pathOf : Endpoint → String
  | .home => "/"
  | .apiHome => "/api"
  | .users => "/api/users"
  | .orders => "/api/orders"
  | .slow => "/api/slow"
  | .error => "/error"
  | .health => "/health"

/-- HTTP status of each route's response (`/error` alone returns 500). -/
def statusOf : Endpoint → Nat
  | .error => 500
  | _ => 200

/-- One inbound request with its per-request values. -/
structure Request where
  ep : Endpoint
  rid : String
  method : String
  remote_addr : String
  user_agent : String
  qt : ℚ
  delay : ℚ
  choice : Fin 3
  elapsedMs : ℚ

/-- The `extra` dict of the `before_request` "Request received" log
(lines 463–470). -/
def beforeLogExtra (r : Request) : List (String × JVal) :=
  [("event", JVal.s "request_start"),
   ("request_id", JVal.s r.rid),
   ("method", JVal.s r.method),
   ("path", JVal.s (pathOf r.ep)),
   ("remote_addr", JVal.s r.remote_addr),
   ("user_agent", JVal.s r.user_agent)]

/-- The `extra` dict of the `after_request` "Request completed" log
(lines 487–494). -/
def afterLogExtra (r : Request) : List (String × JVal) :=
  [("event", JVal.s "request_end"),
   ("request_id", JVal.s r.rid),
   ("method", JVal.s r.method),
   ("path", JVal.s (pathOf r.ep)),
   ("status_code", JVal.n (statusOf r.ep)),
   ("duration_ms", JVal.q (pyRoundTo 2 r.elapsedMs))]

/-- Attributes `before_request` sets on the request's root span
(lines 453–457). -/
def rootSpanAttrs (r : Request) : List (String × JVal) :=
  [("http.request_id", JVal.s r.rid),
   ("http.method", JVal.s r.method),
   ("http.route", JVal.s (pathOf r.ep)),
   ("http.user_agent", JVal.s r.user_agent)]

/-- The `extra` dicts of the logs each handler emits, in source order. -/
def handlerLogExtras (r : Request) : List (List (String × JVal)) :=
  match r.ep with
  | .home =>
      [[("request_id", JVal.s r.rid), ("handler", JVal.s "home"),
        ("response_type", JVal.s "html")]]
  | .apiHome =>
      [[("request_id", JVal.s r.rid), ("handler", JVal.s "api_home"),
        ("action", JVal.s "processing")]]
  | .users =>
      [[("request_id", JVal.s r.rid), ("handler", JVal.s "get_users"),
        ("action", JVal.s "start")],
       [("request_id", JVal.s r.rid), ("validation", JVal.s "passed")],
       [("request_id", JVal.s r.rid), ("db_system", JVal.s "postgresql"),
        ("db_operation", JVal.s "SELECT"), ("table", JVal.s "users"),
        ("query_time_ms", JVal.q (pyRoundTo 2 r.qt)),
        ("rows_returned", JVal.n 3)],
       [("request_id", JVal.s r.rid), ("user_count", JVal.n 3)],
       [("request_id", JVal.s r.rid), ("handler", JVal.s "get_users"),
        ("action", JVal.s "complete"), ("user_count", JVal.n 3)]]
  | .orders =>
      [[("request_id", JVal.s r.rid), ("handler", JVal.s "get_orders"),
        ("action", JVal.s "start")],
       [("request_id", JVal.s r.rid), ("auth_method", JVal.s "token"),
        ("auth_result", JVal.s "success")],
       [("request_id", JVal.s r.rid), ("db_system", JVal.s "postgresql"),
        ("table", JVal.s "orders"),
        ("query_time_ms", JVal.q (pyRoundTo 2 r.qt)),
        ("rows_returned", JVal.n 2)],
       [("request_id", JVal.s r.rid), ("order_count", JVal.n 2)],
       [("request_id", JVal.s r.rid),
        ("total_value", JVal.q ordersTotalValue),
        ("total_items", JVal.n ordersTotalItems),
        ("order_count", JVal.n 2)],
       [("request_id", JVal.s r.rid), ("handler", JVal.s "get_orders"),
        ("action", JVal.s "complete"), ("order_count", JVal.n 2),
        ("total_value", JVal.q ordersTotalValue)]]
  | .slow =>
      [[("request_id", JVal.s r.rid), ("handler", JVal.s "slow_endpoint"),
        ("expected_delay_seconds", JVal.q (pyRoundTo 2 r.delay)),
        ("warning_type", JVal.s "latency")],
       [("request_id", JVal.s r.rid), ("phase", JVal.n 1),
        ("phase_delay_seconds", JVal.q (pyRoundTo 3 (r.delay / 3)))],
       [("request_id", JVal.s r.rid), ("phase", JVal.n 2),
        ("phase_delay_seconds", JVal.q (pyRoundTo 3 (r.delay / 3)))],
       [("request_id", JVal.s r.rid), ("phase", JVal.n 3),
        ("phase_delay_seconds", JVal.q (pyRoundTo 3 (r.delay / 3)))],
       [("request_id", JVal.s r.rid), ("handler", JVal.s "slow_endpoint"),
        ("actual_delay_seconds", JVal.q (pyRoundTo 2 r.delay)),
        ("warning_type", JVal.s "latency_complete")]]
  | .error =>
      [[("request_id", JVal.s r.rid), ("handler", JVal.s "error_endpoint"),
        ("action", JVal.s "start")],
       [("request_id", JVal.s r.rid), ("stage", JVal.s "pre_error")],
       [("request_id", JVal.s r.rid), ("handler", JVal.s "error_endpoint"),
        ("error_type", JVal.s (raisedExc (errorChoice r.choice)).typeName),
        ("error_message", JVal.s (raisedExc (errorChoice r.choice)).msgStr),
        ("status_code", JVal.n 500)],
       [("request_id", JVal.s r.rid),
        ("exception_class",
          JVal.s (raisedExc (errorChoice r.choice)).typeName),
        ("exception_args",
          JVal.s (raisedExc (errorChoice r.choice)).argsStr),
        ("recovery_action", JVal.s "retry_recommended")]]
  | .health => []

/-- All log `extra` dicts emitted during one request: the entry-hook log,
the handler's logs, then the exit-hook log. -/
def requestLogExtras (r : Request) : List (List (String × JVal)) :=
  beforeLogExtra r :: handlerLogExtras r ++ [afterLogExtra r]

/-- The endpoint list of the `/api` response (line 529). -/
def apiEndpointsList : List String :=
  ["/", "/api", "/api/users", "/api/orders", "/api/slow", "/error",
   "/health"]

/-- The `/api` response body (lines 532–536). -/
def apiHomeBody (rid : String) : List (String × JVal) :=
  [("message", JVal.s "Welcome to the OTEL Demo App API!"),
   ("endpoints", JVal.strs apiEndpointsList),
   ("request_id", JVal.s rid)]

/-- One row of the hard-coded `users` result set (lines 588–592). -/
structure User where
  id : Nat
  name : String
  email : String
  active : Bool
deriving DecidableEq

def usersRows : List User :=
  [⟨1, "Alice", "alice@example.com", true⟩,
   ⟨2, "Bob", "bob@example.com", true⟩,
   ⟨3, "Charlie", "charlie@example.com", true⟩]

/-- The `/api/users` response body (line 614). -/
structure UsersBody where
  users : List User
  count : Nat
  request_id : String
deriving DecidableEq

def usersBody (rid : String) : UsersBody :=
  { users := usersRows, count := usersRows.length, request_id := rid }

/-- First string value under key `k`, when the body stores one there. -/
def lookupStr (l : List (String × JVal)) (k : String) : Option String :=
  match l.lookup k with
  | some (JVal.s v) => some v
  | _ => none

/-- The `request_id` field of each route's response body, when the body
contains one (`/` serves HTML and `/health`'s body has no such field). -/
def responseRequestId (r : Request) : Option String :=
  match r.ep with
  | .home => none
  | .apiHome => lookupStr (apiHomeBody r.rid) "request_id"
  | .users => some (usersBody r.rid).request_id
  | .orders => some (ordersBody r.rid).request_id
  | .slow => lookupStr (slowBody r.delay r.rid) "request_id"
  | .error =>
      (errorResponse r.choice r.rid).bind fun p => lookupStr p.1 "request_id"
  | .health => lookupStr healthResponse.1 "request_id"

/-- C3: for every request to any route, the `http.request_id` attribute on
the request's root span, the `request_id` field of every log record emitted
during the request, and the response body's `request_id` field (when the
body contains one) all equal the request identifier `g.request_id`. -/
theorem request_id_consistent (r : Request) :
    (rootSpanAttrs r).lookup "http.request_id" = some (JVal.s r.rid) ∧
    (∀ extra ∈ requestLogExtras r,
      extra.lookup "request_id" = some (JVal.s r.rid)) ∧
    (∀ s, responseRequestId r = some s → s = r.rid) := by
  obtain ⟨ep, rid, m, ra, ua, qt, delay, choice, el⟩ := r
  refine ⟨rfl, ?_, ?_⟩
  · cases ep <;>
      · intro extra hx
        fin_cases hx <;> rfl
  · cases ep <;> intro s hs <;>
      first
        | exact (Option.some.inj hs).symm
        | exact Option.noConfusion hs

theorem request_id_consistent_witness :
    (rootSpanAttrs
        ⟨Endpoint.apiHome, "abc12345", "GET", "127.0.0.1", "curl", 1, 1, 0,
         2⟩).lookup "http.request_id" = some (JVal.s "abc12345") ∧
    (∀ extra ∈ requestLogExtras
        ⟨Endpoint.apiHome, "abc12345", "GET", "127.0.0.1", "curl", 1, 1, 0,
         2⟩,
      extra.lookup "request_id" = some (JVal.s "abc12345")) ∧
    (∀ s, responseRequestId
        ⟨Endpoint.apiHome, "abc12345", "GET", "127.0.0.1", "curl", 1, 1, 0,
         2⟩ = some s → s = "abc12345") :=
  request_id_consistent
    ⟨Endpoint.apiHome, "abc12345", "GET", "127.0.0.1", "curl", 1, 1, 0, 2⟩

end OtelDemo
